import Mathlib

/-!
Verification of the smart-home controller's merge engine and frame codec
(`SmartHomeController.parse_command` and `SmartHomeController.send_device_states`
in `app_version_7_intensity.py`), shallowly embedded over a Python-like
value type.  JSON/Python values carried by parsed documents and by the
device-state store are modelled by `PyVal` (strings, integers, dicts);
Python dicts are association lists in insertion order, and in-place item
assignment is modelled functionally.  Exceptions are modelled by a `Bool`
success flag threaded through each pass: `false` means a Python exception
escaped to the outer handler of `parse_command`, which returns `None` while
keeping the mutations made so far.
-/

namespace SmartHome

/-- A Python/JSON value as it appears in parsed model output and in the
device-state dictionary: a string, an integer, or a dict. -/
inductive PyVal where
  | str : String → PyVal
  | int : Int → PyVal
  | dict : List (String × PyVal) → PyVal

/-- The device-state store (`self.device_states`): a Python dict modelled as
an association list in insertion order. -/
abbrev Store := List (String × PyVal)

/-- Python `d[k]` on a dict: the value at the first matching key, `none`
standing for `KeyError`. -/
def dIndex : List (String × PyVal) → String → Option PyVal
  | [], _ => none
  | (k₀, v) :: t, k => if k₀ == k then some v else dIndex t k

/-- Python `d.get(k, dflt)` with the default already evaluated. -/
def dGet (fs : List (String × PyVal)) (k : String) (dflt : PyVal) : PyVal :=
  (dIndex fs k).getD dflt

/-- Python `d[k] = v` on a dict: replace the entry in place when the key is
present, append a new entry otherwise. -/
def dSet : List (String × PyVal) → String → PyVal → List (String × PyVal)
  | [], k, v => [(k, v)]
  | (k₀, w) :: t, k, v => if k₀ == k then (k, v) :: t else (k₀, w) :: dSet t k v

/-- Store lookup (`self.device_states[dev]` / `dev in self.device_states`). -/
def storeGet (st : Store) (k : String) : Option PyVal := dIndex st k

/-- Store item assignment (`self.device_states[dev] = v`). -/
def storeSet (st : Store) (k : String) (v : PyVal) : Store := dSet st k v

/-- The keys of the store, in insertion order. -/
def storeKeys (st : Store) : List String := st.map (fun p => p.1)

/-- The whitespace characters stripped by Python `str.strip()` (ASCII range). -/
def isPySpace (c : Char) : Bool :=
  c == ' ' || c == '\t' || c == '\n' || c == '\r' || c == '\x0b' || c == '\x0c'

/-- Python `s.rstrip(chars)`: remove trailing characters belonging to `p`. -/
def rstripSet (p : Char → Bool) (s : String) : String :=
  ⟨(s.data.reverse.dropWhile p).reverse⟩

/-- Python `s.rstrip('%')` as used on intensity strings. -/
def rstripPct (s : String) : String := rstripSet (fun c => c == '%') s

/-- Python `s.rstrip('Â°')` as used on the servo angle (the source literal
holds the two characters U+00C2 and U+00B0). -/
def rstripDeg (s : String) : String := rstripSet (fun c => c == 'Â' || c == '°') s

/-- Python `s.strip()`: remove leading and trailing whitespace. -/
def pyStrip (s : String) : String :=
  ⟨((s.data.reverse.dropWhile isPySpace).reverse).dropWhile isPySpace⟩

/-- Digits of a Python integer literal after the first: decimal digits with
single underscores allowed between digits (`int("1_5") == 15`). -/
def parseUDigits (acc : Nat) : List Char → Option Nat
  | [] => some acc
  | '_' :: c :: rest =>
      if c.isDigit then parseUDigits (acc * 10 + (c.toNat - 48)) rest else none
  | c :: rest =>
      if c.isDigit then parseUDigits (acc * 10 + (c.toNat - 48)) rest else none

/-- An unsigned Python integer literal: at least one digit, underscores only
between digits. -/
def parsePyNat : List Char → Option Nat
  | c :: rest => if c.isDigit then parseUDigits (c.toNat - 48) rest else none
  | [] => none

/-- Python `int(s)` on a string: surrounding whitespace, an optional sign,
then a digit string.  `none` stands for `ValueError`. -/
def parsePyInt (s : String) : Option Int :=
  let l := (s.data.dropWhile isPySpace).reverse.dropWhile isPySpace |>.reverse
  match l with
  | '-' :: rest => (parsePyNat rest).map (fun n => -(n : Int))
  | '+' :: rest => (parsePyNat rest).map (fun n => (n : Int))
  | _ => (parsePyNat l).map (fun n => (n : Int))

/-- Python `int(x)` on a value: identity on integers, string parsing on
strings, `TypeError` (`none`) on dicts. -/
def pyInt : PyVal → Option Int
  | .int n => some n
  | .str s => parsePyInt s
  | .dict _ => none

/-- A single-quote character, for Python `repr` of strings inside dicts. -/
def sq : String := String.singleton (Char.ofNat 39)

mutual
/-- Python `repr(v)` (used inside dict display): strings are quoted. -/
def pyRepr : PyVal → String
  | .str s => sq ++ s ++ sq
  | .int n => toString n
  | .dict fs => "\x7b" ++ String.intercalate ", " (pyReprPairs fs) ++ "\x7d"

/-- The `'key': value` items of a Python dict display. -/
def pyReprPairs : List (String × PyVal) → List String
  | [] => []
  | (k, v) :: t => (sq ++ k ++ sq ++ ": " ++ pyRepr v) :: pyReprPairs t
end

/-- Python `str(x)`: a string displays as itself, an integer in decimal, a
dict by its display form. -/
def pyStr : PyVal → String
  | .str s => s
  | .int n => toString n
  | .dict fs => "\x7b" ++ String.intercalate ", " (pyReprPairs fs) ++ "\x7d"

/-- Python `isinstance(x, dict)` as a test on values. -/
def PyVal.isDict : PyVal → Bool
  | .dict _ => true
  | _ => false

/-- The initial device-state dictionary built in `SmartHomeController.__init__`. -/
def initStore : Store := [
  ("room 1 light", .str "off"),
  ("room 2 light", .dict [("state", .str "off"), ("intensity", .int 0)]),
  ("room 3 light", .dict [("state", .str "off"), ("intensity", .int 0)]),
  ("room 4 light", .str "off"),
  ("kitchen light", .str "off"),
  ("TV", .str "off"),
  ("Refrigerator", .str "off"),
  ("DC motor", .str "off"),
  ("Servo motor", .dict [("direction", .str "none"), ("degrees", .int 0)])
]

/-- One iteration of the `for device, state in device_states.items()` loop of
`parse_command` (lines 123-142): intensity lights take `state`/`intensity`
sub-fields from a dict value or have their `state` replaced by a bare value;
the servo takes `direction`/`degrees` sub-fields from a dict value and
ignores anything else; every other known device has its stored value
replaced verbatim; unknown devices are skipped.  The `Bool` is `false` when
a `KeyError`/`TypeError` escapes (evaluating an eager `dict.get` default on
a missing key, or subscripting a non-dict stored servo value). -/
def updateDeviceEntry (st : Store) (device : String) (v : PyVal) : Store × Bool :=
  match storeGet st device with
  | none => (st, true)
  | some cur =>
    if device == "room 2 light" || device == "room 3 light" then
      match cur with
      | .dict fields =>
        match v with
        | .dict vf =>
          match dIndex fields "state" with
          | none => (st, false)
          | some curState =>
            let fields1 := dSet fields "state" (dGet vf "state" curState)
            match dIndex fields1 "intensity" with
            | none => (storeSet st device (.dict fields1), false)
            | some curInt =>
              (storeSet st device (.dict (dSet fields1 "intensity" (dGet vf "intensity" curInt))), true)
        | _ => (storeSet st device (.dict (dSet fields "state" v)), true)
      | _ => (st, true)
    else if device == "Servo motor" then
      match v with
      | .dict vf =>
        match cur with
        | .dict fields =>
          match dIndex fields "direction" with
          | none => (st, false)
          | some curDir =>
            let fields1 := dSet fields "direction" (dGet vf "direction" curDir)
            match dIndex fields1 "degrees" with
            | none => (storeSet st device (.dict fields1), false)
            | some curDeg =>
              (storeSet st device (.dict (dSet fields1 "degrees" (dGet vf "degrees" curDeg))), true)
        | _ => (st, false)
      | _ => (st, true)
    else
      (storeSet st device v, true)

/-- The `for device, state in device_states.items()` loop, stopping at the
first escaped exception. -/
def updateDeviceStates (st : Store) : List (String × PyVal) → Store × Bool
  | [] => (st, true)
  | (d, v) :: rest =>
    let r := updateDeviceEntry st d v
    if r.2 then updateDeviceStates r.1 rest else r

/-- The percent-stripping pre-step of the intensity loop (line 148-149):
only string values have trailing `%` removed. -/
def stripPctVal : PyVal → PyVal
  | .str s => .str (rstripPct s)
  | v => v

/-- One iteration of the `for light, intensity in light_intensity.items()`
loop (lines 145-158): guarded to the two intensity lights; `int()` failure
(`ValueError`/`TypeError`) is caught and skips the entry; a missing store
key raises `KeyError` (not caught); a non-dict stored value raises
`TypeError` on item assignment (caught, entry skipped); otherwise the
`intensity` field is set to the parsed integer and `state` re-derived. -/
def updateIntensityEntry (st : Store) (light : String) (v : PyVal) : Store × Bool :=
  if light == "room 2 light" || light == "room 3 light" then
    match pyInt (stripPctVal v) with
    | none => (st, true)
    | some n =>
      match storeGet st light with
      | none => (st, false)
      | some (.dict fields) =>
        (storeSet st light
          (.dict (dSet (dSet fields "intensity" (.int n)) "state"
            (.str (if 0 < n then "on" else "off")))), true)
      | some _ => (st, true)
  else (st, true)

/-- The intensity loop over the whole `light_intensity` map. -/
def updateIntensities (st : Store) : List (String × PyVal) → Store × Bool
  | [] => (st, true)
  | (l, v) :: rest =>
    let r := updateIntensityEntry st l v
    if r.2 then updateIntensities r.1 rest else r

/-- The servo-angle step (lines 161-165): when an angle is supplied,
`int(str(angle).rstrip('Â°'))` is attempted with `ValueError`/`TypeError`
caught (skip); a missing `"Servo motor"` key raises `KeyError` (not caught);
a non-dict stored value raises `TypeError` on item assignment (caught). -/
def updateServoAngle (st : Store) : Option PyVal → Store × Bool
  | none => (st, true)
  | some a =>
    match pyInt (.str (rstripDeg (pyStr a))) with
    | none => (st, true)
    | some n =>
      match storeGet st "Servo motor" with
      | none => (st, false)
      | some (.dict fields) =>
        (storeSet st "Servo motor" (.dict (dSet fields "degrees" (.int n))), true)
      | some _ => (st, true)

/-- The servo-direction step (lines 167-168): when a direction is supplied
it is stored with no validation and no exception handler; a missing
`"Servo motor"` key or non-dict stored value escapes as an exception. -/
def updateServoDirection (st : Store) : Option PyVal → Store × Bool
  | none => (st, true)
  | some d =>
    match storeGet st "Servo motor" with
    | none => (st, false)
    | some (.dict fields) =>
      (storeSet st "Servo motor" (.dict (dSet fields "direction" d)), true)
    | some _ => (st, false)

/-- The parsed structured output consumed by `parse_command`: the
`device_states` and `light_intensity` maps (dicts, iterated in insertion
order), the optional servo overrides, the advisory message, and the
optional delay.  `none` stands for an absent field (`dict.get` default). -/
structure ParsedOutput where
  device_states : List (String × PyVal)
  light_intensity : List (String × PyVal)
  servo_motor_angle : Option PyVal
  servo_motor_direction : Option PyVal
  chatbot_message : Option String
  delay_seconds : Option PyVal

/-- The dictionary `parse_command` returns on success. -/
structure ParseResult where
  device_states : Store
  chatbot_message : String
  delay_seconds : Int

/-- The body of `SmartHomeController.parse_command` (lines 110-178) from the
parsed structured output onward: run the four update passes in order, then build
the result dict, whose `delay_seconds` entry applies `int()` to the raw
field (defaulting to `0` when absent).  Any escaped exception makes the
function return `None` (`none`) while keeping the store mutations made up
to that point. -/
def parse_command (st : Store) (doc : ParsedOutput) : Store × Option ParseResult :=
  let r1 := updateDeviceStates st doc.device_states
  if r1.2 then
    let r2 := updateIntensities r1.1 doc.light_intensity
    if r2.2 then
      let r3 := updateServoAngle r2.1 doc.servo_motor_angle
      if r3.2 then
        let r4 := updateServoDirection r3.1 doc.servo_motor_direction
        if r4.2 then
          match pyInt (doc.delay_seconds.getD (.int 0)) with
          | none => (r4.1, none)
          | some d => (r4.1, some ⟨r4.1, doc.chatbot_message.getD "Command processed", d⟩)
        else (r4.1, none)
      else (r3.1, none)
    else (r2.1, none)
  else (r1.1, none)

/-- Double the quote characters of a field, per CSV escaping. -/
def csvEscape (s : String) : String :=
  ⟨s.data.foldr (fun c acc => if c == '"' then '"' :: '"' :: acc else c :: acc) []⟩

/-- Minimal CSV quoting as performed by Python's `csv.writer`: a field is
quoted exactly when it contains the delimiter, the quote character, or a
line-terminator character. -/
def csvField (s : String) : String :=
  if s.data.any (fun c => c == ',' || c == '"' || c == '\r' || c == '\n') then
    "\"" ++ csvEscape s ++ "\""
  else s

/-- The comma-joined CSV record of a list of (already stringified) fields. -/
def csvJoin (fields : List String) : String :=
  String.intercalate "," (fields.map csvField)

/-- One `writerow(fields)` call of Python's `csv.writer`: the quoted record
plus the default `\r\n` terminator. -/
def csvRow (fields : List String) : String := csvJoin fields ++ "\r\n"

/-- The framing applied to the written record (line 205):
`f"START{output.getvalue().strip()}END\n"`. -/
def frameOf (rec : String) : String := "START" ++ pyStrip rec ++ "END\n"

/-- The per-device body of `send_device_states` (lines 188-206): intensity
lights write `[dev, state, intensity]`, the servo writes
`[dev, direction, degrees]` (missing sub-keys raise `KeyError`, modelled as
`none`), any other dict-valued device writes no row (an empty frame), and a
non-dict value writes `[dev, value]`. -/
def encodeDevice (dev : String) (v : PyVal) : Option String :=
  match v with
  | .dict fields =>
    if dev == "room 2 light" || dev == "room 3 light" then
      match dIndex fields "state", dIndex fields "intensity" with
      | some s, some i => some (frameOf (csvRow [dev, pyStr s, pyStr i]))
      | _, _ => none
    else if dev == "Servo motor" then
      match dIndex fields "direction", dIndex fields "degrees" with
      | some d, some g => some (frameOf (csvRow [dev, pyStr d, pyStr g]))
      | _, _ => none
    else some (frameOf "")
  | _ => some (frameOf (csvRow [dev, pyStr v]))

/-- The record fields the specification associates with each device shape:
`[id, state]` for a bare value, `[id, state, intensity]` for an intensity
light, `[id, direction, degrees]` for the servo. -/
def frameFields (dev : String) (v : PyVal) : Option (List String) :=
  match v with
  | .dict fields =>
    if dev == "room 2 light" || dev == "room 3 light" then
      match dIndex fields "state", dIndex fields "intensity" with
      | some s, some i => some [dev, pyStr s, pyStr i]
      | _, _ => none
    else if dev == "Servo motor" then
      match dIndex fields "direction", dIndex fields "degrees" with
      | some d, some g => some [dev, pyStr d, pyStr g]
      | _, _ => none
    else none
  | _ => some [dev, pyStr v]

/-! ### Dictionary and store lemmas -/

theorem dIndex_dSet_self (fs : List (String × PyVal)) (k : String) (v : PyVal) :
    dIndex (dSet fs k v) k = some v := by
  induction fs with
  | nil => simp [dSet, dIndex]
  | cons p t ih =>
    obtain ⟨k₀, w⟩ := p
    by_cases hb : k₀ = k
    · subst hb; simp [dSet, dIndex]
    · simp [dSet, dIndex, hb, ih]

theorem dIndex_dSet_ne (fs : List (String × PyVal)) (k k' : String) (v : PyVal)
    (h : k' ≠ k) : dIndex (dSet fs k v) k' = dIndex fs k' := by
  induction fs with
  | nil => simp [dSet, dIndex, Ne.symm h]
  | cons p t ih =>
    obtain ⟨k₀, w⟩ := p
    by_cases hb : k₀ = k
    · subst hb; simp [dSet, dIndex, Ne.symm h]
    · by_cases hc : k₀ = k'
      · subst hc; simp [dSet, dIndex, hb]
      · simp [dSet, dIndex, hb, hc, ih]

theorem storeGet_storeSet_self (st : Store) (k : String) (v : PyVal) :
    storeGet (storeSet st k v) k = some v :=
  dIndex_dSet_self st k v

theorem storeKeys_storeSet (st : Store) (k : String) (v : PyVal)
    (h : (storeGet st k).isSome) : storeKeys (storeSet st k v) = storeKeys st := by
  induction st with
  | nil => simp [storeGet, dIndex] at h
  | cons p t ih =>
    obtain ⟨k₀, w⟩ := p
    by_cases hb : k₀ = k
    · subst hb; simp [storeSet, dSet, storeKeys]
    · have h' : (storeGet t k).isSome := by
        simpa [storeGet, dIndex, hb] using h
      simpa [storeSet, dSet, storeKeys, hb] using ih h'

theorem storeGet_eq_none_iff (st : Store) (k : String) :
    storeGet st k = none ↔ k ∉ storeKeys st := by
  induction st with
  | nil => simp [storeGet, dIndex, storeKeys]
  | cons p t ih =>
    obtain ⟨k₀, w⟩ := p
    by_cases hb : k₀ = k
    · subst hb; simp [storeGet, dIndex, storeKeys]
    · simp only [storeGet, dIndex, storeKeys] at ih ⊢
      simp [hb, Ne.symm hb, ih]

/-! ### Key preservation of the merge passes -/

theorem keys_updateDeviceEntry (st : Store) (d : String) (v : PyVal) :
    storeKeys (updateDeviceEntry st d v).1 = storeKeys st := by
  unfold updateDeviceEntry
  repeat' (first | split | simp only [])
  all_goals first | rfl | exact storeKeys_storeSet _ _ _ (by simp_all)

theorem keys_updateIntensityEntry (st : Store) (l : String) (v : PyVal) :
    storeKeys (updateIntensityEntry st l v).1 = storeKeys st := by
  unfold updateIntensityEntry
  repeat' (first | split | simp only [])
  all_goals first | rfl | exact storeKeys_storeSet _ _ _ (by simp_all)

theorem keys_updateServoAngle (st : Store) (a : Option PyVal) :
    storeKeys (updateServoAngle st a).1 = storeKeys st := by
  unfold updateServoAngle
  repeat' (first | split | simp only [])
  all_goals first | rfl | exact storeKeys_storeSet _ _ _ (by simp_all)

theorem keys_updateServoDirection (st : Store) (d : Option PyVal) :
    storeKeys (updateServoDirection st d).1 = storeKeys st := by
  unfold updateServoDirection
  repeat' (first | split | simp only [])
  all_goals first | rfl | exact storeKeys_storeSet _ _ _ (by simp_all)

theorem keys_updateDeviceStates (l : List (String × PyVal)) :
    ∀ st : Store, storeKeys (updateDeviceStates st l).1 = storeKeys st := by
  induction l with
  | nil => intro st; rfl
  | cons p t ih =>
    intro st
    obtain ⟨d, v⟩ := p
    simp only [updateDeviceStates]
    split
    · rw [ih]; exact keys_updateDeviceEntry st d v
    · exact keys_updateDeviceEntry st d v

theorem keys_updateIntensities (l : List (String × PyVal)) :
    ∀ st : Store, storeKeys (updateIntensities st l).1 = storeKeys st := by
  induction l with
  | nil => intro st; rfl
  | cons p t ih =>
    intro st
    obtain ⟨lt, v⟩ := p
    simp only [updateIntensities]
    split
    · rw [ih]; exact keys_updateIntensityEntry st lt v
    · exact keys_updateIntensityEntry st lt v

theorem keys_parse_command (st : Store) (doc : ParsedOutput) :
    storeKeys (parse_command st doc).1 = storeKeys st := by
  simp only [parse_command]
  split
  · split
    · split
      · split
        · split <;>
            simp only [] <;>
            rw [keys_updateServoDirection, keys_updateServoAngle,
              keys_updateIntensities, keys_updateDeviceStates]
        · rw [keys_updateServoDirection, keys_updateServoAngle,
            keys_updateIntensities, keys_updateDeviceStates]
      · rw [keys_updateServoAngle, keys_updateIntensities, keys_updateDeviceStates]
    · rw [keys_updateIntensities, keys_updateDeviceStates]
  · rw [keys_updateDeviceStates]

/-! ### Skipping of entries that do not reach their guard -/

theorem updateDeviceEntry_skip (st : Store) (d : String) (v : PyVal)
    (h : storeGet st d = none) : updateDeviceEntry st d v = (st, true) := by
  unfold updateDeviceEntry
  rw [h]

theorem updateIntensityEntry_other (st : Store) (l : String) (v : PyVal)
    (h2 : l ≠ "room 2 light") (h3 : l ≠ "room 3 light") :
    updateIntensityEntry st l v = (st, true) := by
  unfold updateIntensityEntry
  rw [if_neg]
  simp [h2, h3]

/-- The parsed document with every entry for one device identifier removed
from both per-device maps. -/
def removeId (uid : String) (doc : ParsedOutput) : ParsedOutput :=
  ⟨doc.device_states.filter (fun p => p.1 != uid),
   doc.light_intensity.filter (fun p => p.1 != uid),
   doc.servo_motor_angle, doc.servo_motor_direction,
   doc.chatbot_message, doc.delay_seconds⟩

theorem updateDeviceStates_filter (uid : String) (l : List (String × PyVal)) :
    ∀ st : Store, storeGet st uid = none →
      updateDeviceStates st (l.filter (fun p => p.1 != uid)) = updateDeviceStates st l := by
  induction l with
  | nil => intro st _; rfl
  | cons p t ih =>
    intro st h
    obtain ⟨d, v⟩ := p
    by_cases hd : d = uid
    · have hf : ((d, v) :: t).filter (fun p => p.1 != uid) = t.filter (fun p => p.1 != uid) := by
        simp [hd]
      have he : updateDeviceStates st ((d, v) :: t) = updateDeviceStates st t := by
        have e := updateDeviceEntry_skip st d v (by rw [hd]; exact h)
        simp [updateDeviceStates, e]
      rw [hf, ih st h, he]
    · have hf : ((d, v) :: t).filter (fun p => p.1 != uid) =
          (d, v) :: t.filter (fun p => p.1 != uid) := by
        simp [hd]
      rw [hf]
      simp only [updateDeviceStates]
      have h' : storeGet (updateDeviceEntry st d v).1 uid = none := by
        rw [storeGet_eq_none_iff] at h ⊢
        rw [keys_updateDeviceEntry]
        exact h
      split
      · exact ih _ h'
      · rfl

theorem updateIntensities_filter (uid : String) (h2 : uid ≠ "room 2 light")
    (h3 : uid ≠ "room 3 light") (l : List (String × PyVal)) :
    ∀ st : Store,
      updateIntensities st (l.filter (fun p => p.1 != uid)) = updateIntensities st l := by
  induction l with
  | nil => intro st; rfl
  | cons p t ih =>
    intro st
    obtain ⟨d, v⟩ := p
    by_cases hd : d = uid
    · have hf : ((d, v) :: t).filter (fun p => p.1 != uid) = t.filter (fun p => p.1 != uid) := by
        simp [hd]
      have he : updateIntensities st ((d, v) :: t) = updateIntensities st t := by
        have e := updateIntensityEntry_other st d v (by rw [hd]; exact h2) (by rw [hd]; exact h3)
        simp [updateIntensities, e]
      rw [hf, ih st, he]
    · have hf : ((d, v) :: t).filter (fun p => p.1 != uid) =
          (d, v) :: t.filter (fun p => p.1 != uid) := by
        simp [hd]
      rw [hf]
      simp only [updateIntensities]
      split
      · exact ih _
      · rfl

/-! ### Claim theorems -/

/-- C9: for every input document the merge neither adds a key to nor removes
a key from the device-state store, and hence any sequence of merges starting
from the constructed store leaves the key set equal to the registry key set
established at construction. -/
theorem merge_preserves_store_keys :
    (∀ (st : Store) (doc : ParsedOutput), storeKeys (parse_command st doc).1 = storeKeys st) ∧
    (∀ docs : List ParsedOutput,
      storeKeys (docs.foldl (fun s d => (parse_command s d).1) initStore) = storeKeys initStore) := by
  have haux : ∀ (docs : List ParsedOutput) (st : Store),
      storeKeys (docs.foldl (fun s d => (parse_command s d).1) st) = storeKeys st := by
    intro docs
    induction docs with
    | nil => intro st; rfl
    | cons d t ih =>
      intro st
      calc storeKeys (List.foldl (fun s d => (parse_command s d).1) ((parse_command st d).1) t)
          = storeKeys (parse_command st d).1 := ih _
        _ = storeKeys st := keys_parse_command st d
  exact ⟨keys_parse_command, fun docs => haux docs initStore⟩

/-- C7: a document entry naming a device identifier outside the registry is
skipped silently by the merge: no store entry is created for it, and the
merge result equals the merge of the document with that identifier's entries
removed (so registered entries are unaffected and nothing is raised). -/
theorem merge_skips_unknown_device (st : Store) (doc : ParsedOutput) (uid : String)
    (h1 : storeGet st uid = none) (h2 : uid ≠ "room 2 light") (h3 : uid ≠ "room 3 light") :
    storeGet (parse_command st doc).1 uid = none ∧
    parse_command st (removeId uid doc) = parse_command st doc := by
  constructor
  · rw [storeGet_eq_none_iff] at h1 ⊢
    rw [keys_parse_command]
    exact h1
  · simp only [parse_command, removeId]
    rw [updateDeviceStates_filter uid doc.device_states st h1]
    rw [updateIntensities_filter uid h2 h3 doc.light_intensity]

/-- Witness for C7 at a concrete unknown device. -/
theorem merge_skips_unknown_device_inst :
    storeGet (parse_command initStore
      ⟨[("garage light", PyVal.str "on")], [], none, none, none, none⟩).1 "garage light" = none ∧
    parse_command initStore
      (removeId "garage light" ⟨[("garage light", PyVal.str "on")], [], none, none, none, none⟩) =
    parse_command initStore ⟨[("garage light", PyVal.str "on")], [], none, none, none, none⟩ :=
  merge_skips_unknown_device initStore
    ⟨[("garage light", PyVal.str "on")], [], none, none, none, none⟩ "garage light"
    rfl (by decide) (by decide)

/-- C1 (counterexample): the claimed invariant fails on the code: a single
merge of a document whose `servo_motor_direction` is `"up"` stores the
direction `"up"`, which is none of `clock`/`anti`/`none`. -/
theorem merge_stores_invalid_direction :
    storeGet (parse_command initStore ⟨[], [], none, some (PyVal.str "up"), none, none⟩).1
        "Servo motor" =
      some (PyVal.dict [("direction", PyVal.str "up"), ("degrees", PyVal.int 0)]) ∧
    ¬("up" = "clock" ∨ "up" = "anti" ∨ "up" = "none") :=
  ⟨rfl, by decide⟩

/-- C1 (amended): the only place the merge re-establishes the Dimmable
invariant is the `light_intensity` pass: when an intensity value parses,
the entry's `intensity` field becomes exactly the parsed integer and its
`state` field is re-derived, so `state == "on"` iff the parsed intensity is
positive; no other merge path (and no Actuator path) enforces any invariant. -/
theorem merge_intensity_pass_restores_dimmable_iff
    (st : Store) (light : String) (v : PyVal) (n : Int) (fields : List (String × PyVal))
    (h1 : light = "room 2 light" ∨ light = "room 3 light")
    (h2 : pyInt (stripPctVal v) = some n)
    (h3 : storeGet st light = some (.dict fields)) :
    storeGet (updateIntensityEntry st light v).1 light =
      some (.dict (dSet (dSet fields "intensity" (.int n)) "state"
        (.str (if 0 < n then "on" else "off")))) ∧
    dIndex (dSet (dSet fields "intensity" (.int n)) "state"
      (.str (if 0 < n then "on" else "off"))) "intensity" = some (.int n) ∧
    (dIndex (dSet (dSet fields "intensity" (.int n)) "state"
      (.str (if 0 < n then "on" else "off"))) "state" = some (.str "on") ↔ 0 < n) := by
  have hguard : (light == "room 2 light" || light == "room 3 light") = true := by
    rcases h1 with h | h <;> simp [h]
  have e : updateIntensityEntry st light v =
      (storeSet st light (.dict (dSet (dSet fields "intensity" (.int n)) "state"
        (.str (if 0 < n then "on" else "off")))), true) := by
    simp [updateIntensityEntry, hguard, h2, h3]
  refine ⟨by rw [e]; exact storeGet_storeSet_self _ _ _, ?_, ?_⟩
  · rw [dIndex_dSet_ne _ _ _ _ (by decide)]
    exact dIndex_dSet_self _ _ _
  · rw [dIndex_dSet_self]
    by_cases h0 : 0 < n
    · simp only [if_pos h0]
      simpa using h0
    · simp only [if_neg h0]
      constructor
      · intro hc
        exact absurd (PyVal.str.inj (Option.some.inj hc)) (by decide)
      · intro hc
        exact absurd hc h0

/-- Witness for the amended C1 at the spec's `75%` scenario. -/
theorem merge_intensity_pass_restores_dimmable_iff_inst :
    storeGet (updateIntensityEntry initStore "room 2 light" (PyVal.str "75%")).1
        "room 2 light" =
      some (PyVal.dict (dSet (dSet [("state", PyVal.str "off"), ("intensity", PyVal.int 0)]
        "intensity" (PyVal.int 75)) "state"
        (PyVal.str (if 0 < (75 : Int) then "on" else "off")))) ∧
    dIndex (dSet (dSet [("state", PyVal.str "off"), ("intensity", PyVal.int 0)]
      "intensity" (PyVal.int 75)) "state"
      (PyVal.str (if 0 < (75 : Int) then "on" else "off"))) "intensity" = some (PyVal.int 75) ∧
    (dIndex (dSet (dSet [("state", PyVal.str "off"), ("intensity", PyVal.int 0)]
      "intensity" (PyVal.int 75)) "state"
      (PyVal.str (if 0 < (75 : Int) then "on" else "off"))) "state" = some (PyVal.str "on")
      ↔ 0 < (75 : Int)) :=
  merge_intensity_pass_restores_dimmable_iff initStore "room 2 light" (PyVal.str "75%") 75
    [("state", PyVal.str "off"), ("intensity", PyVal.int 0)] (Or.inl rfl) rfl rfl

/-- C2 (counterexample): the merge does not clamp: intensity `150` is stored
as `150` (with the light on), and degrees `"200°"` is stored as `200`. -/
theorem merge_no_clamp_at_concrete_inputs :
    storeGet (parse_command initStore
        ⟨[], [("room 2 light", PyVal.int 150)], some (PyVal.str "200°"), none, none, none⟩).1
        "room 2 light" =
      some (PyVal.dict [("state", PyVal.str "on"), ("intensity", PyVal.int 150)]) ∧
    storeGet (parse_command initStore
        ⟨[], [("room 2 light", PyVal.int 150)], some (PyVal.str "200°"), none, none, none⟩).1
        "Servo motor" =
      some (PyVal.dict [("direction", PyVal.str "none"), ("degrees", PyVal.int 200)]) ∧
    (150 : Int) ≠ 100 ∧ (200 : Int) ≠ 180 :=
  ⟨rfl, rfl, by decide, by decide⟩

/-- C2 (amended): the merge parses the intensity (after stripping a percent
suffix) and the servo angle (after stripping a degree suffix) and stores the
parsed integer unchanged — no clamping to `[0,100]` or `[0,180]` occurs. -/
theorem merge_stores_unclamped_values
    (st : Store) (v a : PyVal) (n m : Int) (fs gs : List (String × PyVal))
    (h1 : pyInt (stripPctVal v) = some n)
    (h2 : storeGet st "room 2 light" = some (.dict fs))
    (h3 : pyInt (PyVal.str (rstripDeg (pyStr a))) = some m)
    (h4 : storeGet st "Servo motor" = some (.dict gs)) :
    (storeGet (updateIntensityEntry st "room 2 light" v).1 "room 2 light" =
      some (.dict (dSet (dSet fs "intensity" (.int n)) "state"
        (.str (if 0 < n then "on" else "off")))) ∧
     dIndex (dSet (dSet fs "intensity" (.int n)) "state"
       (.str (if 0 < n then "on" else "off"))) "intensity" = some (.int n)) ∧
    (storeGet (updateServoAngle st (some a)).1 "Servo motor" =
      some (.dict (dSet gs "degrees" (.int m))) ∧
     dIndex (dSet gs "degrees" (.int m)) "degrees" = some (.int m)) := by
  have e1 : updateIntensityEntry st "room 2 light" v =
      (storeSet st "room 2 light" (.dict (dSet (dSet fs "intensity" (.int n)) "state"
        (.str (if 0 < n then "on" else "off")))), true) := by
    simp [updateIntensityEntry, h1, h2]
  have e2 : updateServoAngle st (some a) =
      (storeSet st "Servo motor" (.dict (dSet gs "degrees" (.int m))), true) := by
    simp [updateServoAngle, h3, h4]
  exact ⟨⟨by rw [e1]; exact storeGet_storeSet_self _ _ _,
      by rw [dIndex_dSet_ne _ _ _ _ (by decide)]; exact dIndex_dSet_self _ _ _⟩,
    ⟨by rw [e2]; exact storeGet_storeSet_self _ _ _, dIndex_dSet_self _ _ _⟩⟩

/-- Witness for the amended C2 at intensity `150` and angle `"200°"`:
the stored values are the unclamped `150` and `200`. -/
theorem merge_stores_unclamped_values_inst :
    (storeGet (updateIntensityEntry initStore "room 2 light" (PyVal.int 150)).1
        "room 2 light" =
      some (PyVal.dict (dSet (dSet [("state", PyVal.str "off"), ("intensity", PyVal.int 0)]
        "intensity" (PyVal.int 150)) "state"
        (PyVal.str (if 0 < (150 : Int) then "on" else "off")))) ∧
     dIndex (dSet (dSet [("state", PyVal.str "off"), ("intensity", PyVal.int 0)]
       "intensity" (PyVal.int 150)) "state"
       (PyVal.str (if 0 < (150 : Int) then "on" else "off"))) "intensity" =
      some (PyVal.int 150)) ∧
    (storeGet (updateServoAngle initStore (some (PyVal.str "200°"))).1 "Servo motor" =
      some (PyVal.dict (dSet [("direction", PyVal.str "none"), ("degrees", PyVal.int 0)]
        "degrees" (PyVal.int 200))) ∧
     dIndex (dSet [("direction", PyVal.str "none"), ("degrees", PyVal.int 0)]
       "degrees" (PyVal.int 200)) "degrees" = some (PyVal.int 200)) :=
  merge_stores_unclamped_values initStore (PyVal.int 150) (PyVal.str "200°") 150 200
    [("state", PyVal.str "off"), ("intensity", PyVal.int 0)]
    [("direction", PyVal.str "none"), ("degrees", PyVal.int 0)] rfl rfl rfl rfl

/-- C3 (counterexample): an unrecognized direction is not skipped: merging a
document with `servo_motor_direction = "sideways"` overwrites the previous
direction `"none"` with `"sideways"`. -/
theorem merge_direction_sideways_stored :
    storeGet (parse_command initStore
        ⟨[], [], none, some (PyVal.str "sideways"), none, none⟩).1 "Servo motor" =
      some (PyVal.dict [("direction", PyVal.str "sideways"), ("degrees", PyVal.int 0)]) ∧
    PyVal.str "sideways" ≠ PyVal.str "none" ∧
    ¬("sideways" = "clock" ∨ "sideways" = "anti" ∨ "sideways" = "none") :=
  ⟨rfl, fun h => absurd (PyVal.str.inj h) (by decide), by decide⟩

/-- C3 (amended): when a direction value is supplied for the servo motor,
the merge stores it verbatim with no validation against
`{clock, anti, none}`: any value, recognized or not, replaces the previous
direction. -/
theorem merge_sets_direction_unvalidated (st : Store) (d : PyVal)
    (gs : List (String × PyVal))
    (h : storeGet st "Servo motor" = some (.dict gs)) :
    updateServoDirection st (some d) =
      (storeSet st "Servo motor" (.dict (dSet gs "direction" d)), true) ∧
    storeGet (updateServoDirection st (some d)).1 "Servo motor" =
      some (.dict (dSet gs "direction" d)) ∧
    dIndex (dSet gs "direction" d) "direction" = some d := by
  have e : updateServoDirection st (some d) =
      (storeSet st "Servo motor" (.dict (dSet gs "direction" d)), true) := by
    simp [updateServoDirection, h]
  exact ⟨e, by rw [e]; exact storeGet_storeSet_self _ _ _, dIndex_dSet_self _ _ _⟩

/-- Witness for the amended C3 at the unrecognized direction `"diagonal"`. -/
theorem merge_sets_direction_unvalidated_inst :
    updateServoDirection initStore (some (PyVal.str "diagonal")) =
      (storeSet initStore "Servo motor"
        (PyVal.dict (dSet [("direction", PyVal.str "none"), ("degrees", PyVal.int 0)]
          "direction" (PyVal.str "diagonal"))), true) ∧
    storeGet (updateServoDirection initStore (some (PyVal.str "diagonal"))).1 "Servo motor" =
      some (PyVal.dict (dSet [("direction", PyVal.str "none"), ("degrees", PyVal.int 0)]
        "direction" (PyVal.str "diagonal"))) ∧
    dIndex (dSet [("direction", PyVal.str "none"), ("degrees", PyVal.int 0)]
      "direction" (PyVal.str "diagonal")) "direction" = some (PyVal.str "diagonal") :=
  merge_sets_direction_unvalidated initStore (PyVal.str "diagonal")
    [("direction", PyVal.str "none"), ("degrees", PyVal.int 0)] rfl

/-- C4 (counterexample): a dict value for the simple on/off device `"TV"` is
neither coerced through its nested `state` field nor ignored: the dict
itself is stored, so the stored state is no longer a bare on/off token. -/
theorem merge_binary_dict_not_coerced :
    storeGet (parse_command initStore
        ⟨[("TV", PyVal.dict [("state", PyVal.str "on")])], [], none, none, none, none⟩).1
        "TV" =
      some (PyVal.dict [("state", PyVal.str "on")]) ∧
    PyVal.dict [("state", PyVal.str "on")] ≠ PyVal.str "on" :=
  ⟨rfl, fun h => PyVal.noConfusion h⟩

/-- C4 (amended): for every registered device other than the two intensity
lights and the servo motor, the merge replaces the stored state with the
supplied value verbatim, whatever its shape: bare `"on"`/`"off"` tokens set
the state accordingly, but any other value (dicts included) is stored as-is
with no coercion and no filtering. -/
theorem merge_binary_stores_value_verbatim (st : Store) (dev : String) (v cur : PyVal)
    (h1 : storeGet st dev = some cur)
    (h2 : dev ≠ "room 2 light") (h3 : dev ≠ "room 3 light") (h4 : dev ≠ "Servo motor") :
    updateDeviceEntry st dev v = (storeSet st dev v, true) ∧
    storeGet (updateDeviceEntry st dev v).1 dev = some v := by
  have e : updateDeviceEntry st dev v = (storeSet st dev v, true) := by
    simp [updateDeviceEntry, h1, h2, h3, h4]
  exact ⟨e, by rw [e]; exact storeGet_storeSet_self _ _ _⟩

/-- Witness for the amended C4: a dict supplied for `"TV"` is stored
verbatim. -/
theorem merge_binary_stores_value_verbatim_inst :
    updateDeviceEntry initStore "TV" (PyVal.dict [("state", PyVal.str "on")]) =
      (storeSet initStore "TV" (PyVal.dict [("state", PyVal.str "on")]), true) ∧
    storeGet (updateDeviceEntry initStore "TV"
        (PyVal.dict [("state", PyVal.str "on")])).1 "TV" =
      some (PyVal.dict [("state", PyVal.str "on")]) :=
  merge_binary_stores_value_verbatim initStore "TV"
    (PyVal.dict [("state", PyVal.str "on")]) (PyVal.str "off") rfl
    (by decide) (by decide) (by decide)

/-- C5 (counterexample): an invalid `delay_seconds` value does not default
to 0: `int("abc")` raises, the handler returns `None`, and the caller sees
an error. -/
theorem merge_delay_invalid_errors :
    (parse_command initStore ⟨[], [], none, none, none, some (PyVal.str "abc")⟩).2 = none :=
  rfl

/-- C5 (amended): a missing `delay_seconds` field yields delay 0 whenever
the merge succeeds, but a present value that fails integer coercion makes
`parse_command` return `None`, which is reported to the caller as an
error. -/
theorem merge_delay_default_or_error (st : Store) (doc : ParsedOutput) :
    (doc.delay_seconds = none →
      ((parse_command st doc).2.map (fun r => r.delay_seconds)).getD 0 = 0) ∧
    (∀ w, doc.delay_seconds = some w → pyInt w = none → (parse_command st doc).2 = none) := by
  constructor
  · intro h
    simp only [parse_command, h, Option.getD_none, pyInt]
    repeat' split
    all_goals simp_all
  · intro w hw hp
    simp only [parse_command, hw, Option.getD_some, hp]
    repeat' split
    all_goals simp_all

/-- Witness for the amended C5: an empty document yields delay 0, and the
concrete invalid delay `"abc"` yields `None`. -/
theorem merge_delay_default_or_error_inst :
    ((parse_command initStore ⟨[], [], none, none, none, none⟩).2.map
      (fun r => r.delay_seconds)).getD 0 = 0 ∧
    (parse_command initStore ⟨[], [], none, none, none, some (PyVal.str "abc")⟩).2 = none :=
  ⟨(merge_delay_default_or_error initStore ⟨[], [], none, none, none, none⟩).1 rfl,
   (merge_delay_default_or_error initStore
      ⟨[], [], none, none, none, some (PyVal.str "abc")⟩).2 (PyVal.str "abc") rfl (by decide)⟩

/-- C8: a malformed intensity value (one failing integer coercion, such as
`"abc%"`) is skipped by the intensity pass: the store is unchanged — prior
intensity and on/off state included — and a merge carrying only that entry
succeeds without an error. -/
theorem merge_malformed_intensity_noop (st : Store) (light : String) (v : PyVal)
    (h1 : light = "room 2 light" ∨ light = "room 3 light")
    (h2 : pyInt (stripPctVal v) = none) :
    updateIntensityEntry st light v = (st, true) ∧
    parse_command st ⟨[], [(light, v)], none, none, none, none⟩ =
      (st, some ⟨st, "Command processed", 0⟩) := by
  have hguard : (light == "room 2 light" || light == "room 3 light") = true := by
    rcases h1 with h | h <;> simp [h]
  have e : updateIntensityEntry st light v = (st, true) := by
    simp [updateIntensityEntry, hguard, h2]
  refine ⟨e, ?_⟩
  simp [parse_command, updateDeviceStates, updateIntensities, updateServoAngle,
    updateServoDirection, e, pyInt]

/-- Witness for C8 at the spec's `"abc%"` example. -/
theorem merge_malformed_intensity_noop_inst :
    updateIntensityEntry initStore "room 2 light" (PyVal.str "abc%") = (initStore, true) ∧
    parse_command initStore ⟨[], [("room 2 light", PyVal.str "abc%")], none, none, none, none⟩ =
      (initStore, some ⟨initStore, "Command processed", 0⟩) :=
  merge_malformed_intensity_noop initStore "room 2 light" (PyVal.str "abc%")
    (Or.inl rfl) rfl

/-- C10: a non-dict value supplied for `"Servo motor"` in the per-device map
is ignored entirely: the store — dictionary, direction and degrees — is
returned unchanged and no exception is raised. -/
theorem merge_servo_nondict_ignored (st : Store) (v : PyVal) (h : v.isDict = false) :
    updateDeviceEntry st "Servo motor" v = (st, true) ∧
    storeGet (updateDeviceEntry st "Servo motor" v).1 "Servo motor" =
      storeGet st "Servo motor" := by
  have e : updateDeviceEntry st "Servo motor" v = (st, true) := by
    unfold updateDeviceEntry
    cases hg : storeGet st "Servo motor" with
    | none => rfl
    | some cur =>
      cases v with
      | dict fs => simp [PyVal.isDict] at h
      | str s => simp
      | int n => simp
  exact ⟨e, by rw [e]⟩

/-- Witness for C10 at the bare token `"on"`. -/
theorem merge_servo_nondict_ignored_inst :
    updateDeviceEntry initStore "Servo motor" (PyVal.str "on") = (initStore, true) ∧
    storeGet (updateDeviceEntry initStore "Servo motor" (PyVal.str "on")).1 "Servo motor" =
      storeGet initStore "Servo motor" :=
  merge_servo_nondict_ignored initStore (PyVal.str "on") rfl

/-! ### Frame codec -/

theorem pyStrip_append_crlf (s : String) : pyStrip (s ++ "\r\n") = pyStrip s := by
  unfold pyStrip
  have hd : (s ++ "\r\n").data = s.data ++ ['\r', '\n'] := by
    rw [String.data_append]
  rw [hd, List.reverse_append]
  simp [List.dropWhile, isPySpace]

/-- C6 (counterexample): the framing strips leading/trailing whitespace of
the CSV record, so a binary state with a trailing space is not emitted as
the CSV record of its fields: the frame for `("TV", "on ")` is
`STARTTV,onEND\n`, not `STARTTV,on END\n`. -/
theorem frame_strips_trailing_space :
    encodeDevice "TV" (PyVal.str "on ") = some "STARTTV,onEND\n" ∧
    frameFields "TV" (PyVal.str "on ") = some ["TV", "on "] ∧
    "STARTTV,onEND\n" ≠ "START" ++ csvJoin ["TV", "on "] ++ "END\n" :=
  ⟨rfl, rfl, by decide⟩

/-- C6 (amended): for a device whose stored value matches its shape, the
emitted frame is the literal `START`, the comma-separated minimally-quoted
CSV record of the shape's fields (id,state / id,state,intensity /
id,direction,degrees), the literal `END` and a single newline — provided
the record carries no leading or trailing whitespace (the code strips the
record's surrounding whitespace before framing). -/
theorem frame_format_of_trimmed_record (dev : String) (v : PyVal) (fs : List String)
    (h1 : frameFields dev v = some fs)
    (h2 : pyStrip (csvJoin fs) = csvJoin fs) :
    encodeDevice dev v = some ("START" ++ csvJoin fs ++ "END\n") := by
  have key : ∀ fields, csvJoin fields = pyStrip (csvJoin fields) →
      frameOf (csvRow fields) = "START" ++ csvJoin fields ++ "END\n" := by
    intro fields hf
    unfold frameOf csvRow
    rw [pyStrip_append_crlf, ← hf]
  cases v with
  | dict fields =>
    simp only [frameFields] at h1
    by_cases hg : (dev == "room 2 light" || dev == "room 3 light") = true
    · rw [if_pos hg] at h1
      cases hs : dIndex fields "state" with
      | none =>
        rw [hs] at h1
        cases hi : dIndex fields "intensity" <;> rw [hi] at h1 <;>
          exact Option.noConfusion h1
      | some s =>
        cases hi : dIndex fields "intensity" with
        | none => rw [hs, hi] at h1; exact Option.noConfusion h1
        | some i =>
          rw [hs, hi] at h1
          obtain rfl : [dev, pyStr s, pyStr i] = fs := Option.some.inj h1
          simp only [encodeDevice]
          rw [if_pos hg, hs, hi]
          show some (frameOf (csvRow [dev, pyStr s, pyStr i])) = _
          rw [key _ h2.symm]
    · rw [if_neg hg] at h1
      by_cases hg2 : (dev == "Servo motor") = true
      · rw [if_pos hg2] at h1
        cases hs : dIndex fields "direction" with
        | none =>
          rw [hs] at h1
          cases hi : dIndex fields "degrees" <;> rw [hi] at h1 <;>
            exact Option.noConfusion h1
        | some d =>
          cases hi : dIndex fields "degrees" with
          | none => rw [hs, hi] at h1; exact Option.noConfusion h1
          | some g =>
            rw [hs, hi] at h1
            obtain rfl : [dev, pyStr d, pyStr g] = fs := Option.some.inj h1
            simp only [encodeDevice]
            rw [if_neg hg, if_pos hg2, hs, hi]
            show some (frameOf (csvRow [dev, pyStr d, pyStr g])) = _
            rw [key _ h2.symm]
      · rw [if_neg hg2] at h1
        exact Option.noConfusion h1
  | str s =>
    simp only [frameFields, Option.some.injEq] at h1
    subst h1
    simp only [encodeDevice]
    show some (frameOf (csvRow [dev, pyStr (PyVal.str s)])) = _
    rw [key _ h2.symm]
  | int n =>
    simp only [frameFields, Option.some.injEq] at h1
    subst h1
    simp only [encodeDevice]
    show some (frameOf (csvRow [dev, pyStr (PyVal.int n)])) = _
    rw [key _ h2.symm]

/-- Witness for the amended C6 at the spec's `kitchen light` example. -/
theorem frame_format_of_trimmed_record_inst :
    encodeDevice "kitchen light" (PyVal.str "on") =
      some ("START" ++ csvJoin ["kitchen light", "on"] ++ "END\n") :=
  frame_format_of_trimmed_record "kitchen light" (PyVal.str "on")
    ["kitchen light", "on"] rfl rfl

end SmartHome
